import Mathlib

/-!
Shallow embedding of the logging and crash-reporting module
probe-rs-cli-util/src/logging.rs.

Strings are modelled as List Char. Instants (Utc::now) are modelled as an
abstract Nat supplied by the caller. The terminal colour layer (the colored
crate and env_logger styles) only wraps text in ANSI escapes; following the
specification, which scopes the colour layer out as a pure styling function,
the embedding models the plain text content of each output line. External
collaborators (the sentry client, the indicatif progress widget, the log
crate global dispatcher) are modelled at their interfaces as used by the
source.
-/

namespace Logging

/-- Log severity, as in the log crate. Constructors are listed in the log
crate order: Error is the most severe and has the smallest numeric value. -/
inductive Level where
  | Error
  | Warn
  | Info
  | Debug
  | Trace
deriving DecidableEq

/-- Numeric value of a severity as assigned by the log crate
(Error = 1 up to Trace = 5); the enabled check compares these numbers. -/
def levelNum : Level → Nat
  | .Error => 1
  | .Warn => 2
  | .Info => 3
  | .Debug => 4
  | .Trace => 5

/-- A log record as both sinks consume it: severity, target (originating
module path) and the formatted message. -/
structure LogRecord where
  level : Level
  target : List Char
  message : List Char
deriving DecidableEq

/-! ## Terminal width tracker (MAX_WINDOW_WIDTH and max_target_width) -/

/-- From max_target_width: the register MAX_WINDOW_WIDTH is passed in as
stored and the new register value is returned next to the result.
If stored is less than the length of target, the length is stored and
returned; otherwise the stored maximum is returned and kept. -/
def max_target_width (stored : Nat) (target : List Char) : Nat × Nat :=
  if stored < target.length then (target.length, target.length)
  else (stored, stored)

/-- The widths returned by a sequence of max_target_width calls, threading
the register value through the calls. -/
def observeRun (stored : Nat) : List (List Char) → List Nat
  | [] => []
  | t :: ts =>
    let p := max_target_width stored t
    p.1 :: observeRun p.2 ts

/-! ## Console sink formatting (the format closure in init) -/

/-- From colored_level: the five-character severity label (colour styling
modelled as plain text). -/
def colored_level : Level → List Char
  | .Trace => "TRACE".data
  | .Debug => "DEBUG".data
  | .Info => " INFO".data
  | .Warn => " WARN".data
  | .Error => "ERROR".data

/-- The Padded display: the value followed by spaces up to width
(no truncation when the value is longer than width). -/
def padded (value : List Char) (width : Nat) : List Char :=
  value ++ List.replicate (width - value.length) ' '

/-- The console format closure in init: seven literal spaces, the severity
label, a space, the target padded to the width tracker result, the separator
and the message. Returns the line and the new width register value. -/
def consoleFormat (stored : Nat) (r : LogRecord) : List Char × Nat :=
  let p := max_target_width stored r.target
  ("       ".data ++ colored_level r.level ++ " ".data ++
    padded r.target p.1 ++ " > ".data ++ r.message, p.2)

/-! ## Remote-report (sentry) sink: the second builder in init -/

/-- Remote severity levels of the sentry breadcrumb, as used by the
severity match in the sentry format closure. -/
inductive SentryLevel where
  | debug
  | info
  | warning
  | error
deriving DecidableEq

/-- A sentry breadcrumb as built by the sentry format closure in init; the
remaining Default fields are never observed by this module and are left
out. The timestamp is the abstract instant of the push. -/
structure Breadcrumb where
  level : SentryLevel
  category : Option (List Char)
  message : Option (List Char)
  timestamp : Nat
deriving DecidableEq

/-- The severity match in the sentry format closure: Trace and Debug both
map to the remote debug level, the other levels map one to one. -/
def sentryLevelOf : Level → SentryLevel
  | .Error => .error
  | .Warn => .warning
  | .Info => .info
  | .Debug => .debug
  | .Trace => .debug

/-- The breadcrumb the sentry format closure pushes for a record at the
instant now: mapped severity, the record target as category, the record
message as message. -/
def breadcrumbOf (now : Nat) (r : LogRecord) : Breadcrumb :=
  { level := sentryLevelOf r.level
    category := some r.target
    message := some r.message
    timestamp := now }

/-- ShareableLogger.enabled for the sentry logger: init fixes its filter at
Debug, and a record passes when its level is at most the filter in the log
crate numeric order. -/
def sentryEnabled (r : LogRecord) : Bool :=
  decide (levelNum r.level ≤ levelNum Level.Debug)

/-- The sentry sink on one record: when the record is enabled its
breadcrumb is pushed onto the LOG buffer, otherwise the buffer is
unchanged. -/
def sentrySinkLog (buf : List Breadcrumb) (now : Nat) (r : LogRecord) :
    List Breadcrumb :=
  if sentryEnabled r then buf ++ [breadcrumbOf now r] else buf

/-! ## Breadcrumb buffer and crash capture flow -/

/-- The stream a module print call is addressed to. -/
inductive Channel where
  | stdout
  | stderr
deriving DecidableEq

/-- A line written through the module print functions (the progress
coordination cell write path), tagged with the stream the call is
addressed to. -/
structure WriteEvent where
  channel : Channel
  text : List Char
deriving DecidableEq

/-- Session metadata (struct Metadata). -/
structure Metadata where
  chip : Option (List Char)
  probe : Option (List Char)
  release : List Char
deriving DecidableEq

/-- The observable state the crash capture flow touches: the LOG breadcrumb
buffer, the breadcrumbs forwarded to the sentry client by add_breadcrumb,
the tags set on the sentry scope, and the lines written through the module
print functions. -/
structure CaptureState where
  log : List Breadcrumb
  sentryCrumbs : List Breadcrumb
  scopeTags : List (List Char × List Char)
  writes : List WriteEvent
deriving DecidableEq

/-- The state at process start: everything empty. -/
def initialState : CaptureState := ⟨[], [], [], []⟩

/-- The push the sentry format closure performs on the LOG buffer (record
in the specification vocabulary). -/
def record (st : CaptureState) (b : Breadcrumb) : CaptureState :=
  { st with log := st.log ++ [b] }

/-- send_logs: drains the LOG buffer, forwarding every breadcrumb to
sentry add_breadcrumb in insertion order, and leaves the buffer empty. -/
def send_logs (st : CaptureState) : CaptureState :=
  { st with log := [], sentryCrumbs := st.sentryCrumbs ++ st.log }

/-- set_metadata: sets the chip and probe tags on the sentry scope, each
one only when present. -/
def set_metadata (m : Metadata) (st : CaptureState) : CaptureState :=
  { st with scopeTags := st.scopeTags ++
      (match m.chip with | some c => [("chip".data, c)] | none => []) ++
      (match m.probe with | some p => [("probe".data, p)] | none => []) }

/-- The fixed text print_uuid places before the identifier: two spaces from
the format string, the Thank You label, a space, the report sentence, and a
space. -/
def ackText : List Char :=
  "  ".data ++ "Thank You!".data ++ " ".data ++
    "Your error was reported successfully. If you don\x27t mind, please open an issue on Github and include the UUID: ".data ++
    " ".data

/-- print_uuid: one line through the module println (stdout channel)
holding the acknowledgment text followed by the identifier. -/
def print_uuid (uuid : List Char) (st : CaptureState) : CaptureState :=
  { st with writes := st.writes ++ [⟨Channel.stdout, ackText ++ uuid⟩] }

/-- capture_error: initializes a scoped sentry client (external, no state
observed here), sets the metadata, drains the buffered logs into the
client, has the client capture the error obtaining the identifier
(external, supplied as the uuid argument), and prints the acknowledgment. -/
def capture_error (m : Metadata) (uuid : List Char) (st : CaptureState) :
    CaptureState :=
  print_uuid uuid (send_logs (set_metadata m st))

/-- capture_anyhow: the same flow, with the identifier obtained from the
anyhow integration capture (external). -/
def capture_anyhow (m : Metadata) (uuid : List Char) (st : CaptureState) :
    CaptureState :=
  print_uuid uuid (send_logs (set_metadata m st))

/-- capture_panic: the same flow, with the identifier obtained from
capturing the panic event (external). -/
def capture_panic (m : Metadata) (uuid : List Char) (st : CaptureState) :
    CaptureState :=
  print_uuid uuid (send_logs (set_metadata m st))

/-! ## Initialization of the global dispatcher -/

/-- Modelled from the spec: the global log routing set by
CombinedLogger.init (through the log crate set_logger, code outside this
repository) cannot be rebound; a second binding attempt returns an error.
The argument is whether the global logger is already bound, the Ok payload
is the new bound state. -/
def combinedLoggerInit (alreadySet : Bool) : Except Unit Bool :=
  if alreadySet then Except.error () else Except.ok true

/-- init builds the two sinks and calls CombinedLogger.init, unwrapping the
result: none models the unwrap panic on a second call, some the successful
return with the dispatcher bound. -/
def initOutcome (alreadySet : Bool) : Option Bool :=
  match combinedLoggerInit alreadySet with
  | Except.ok s => some s
  | Except.error _ => none

/-! ## Consent prompt (text and ask_to_log_crash) -/

/-- The truncation in text: keep everything before the first newline, also
dropping a carriage return standing immediately before that newline (the
source finds the first newline index, steps back over an immediately
preceding carriage return, and truncates there); input without a newline
is kept whole. -/
def textTruncate : List Char → List Char
  | [] => []
  | c :: rest =>
    if c = '\n' then []
    else if c = '\r' ∧ rest.head? = some '\n' then []
    else c :: textTruncate rest

/-- The parse in ask_to_log_crash: lowercase the line; an empty line is
false; a line that the word yes starts with is true; a line that the word
no starts with is false; any other line is false. -/
def consentOfLine (s : List Char) : Bool :=
  let sl := s.map Char.toLower
  if sl.isEmpty then false
  else if sl.isPrefixOf "yes".data then true
  else if sl.isPrefixOf "no".data then false
  else false

/-- The outcome of ask_to_log_crash: the returned Bool, whether the
explanation and prompt were printed, and whether a line was read from
standard input. -/
structure ConsentOutcome where
  result : Bool
  prompted : Bool
  readInput : Bool
deriving DecidableEq

/-- ask_to_log_crash: with the PROBE_RS_SENTRY variable present the result
is whether its value equals true, with no prompt printed and no read;
otherwise the explanation and prompt are printed and a raw line is read by
text (none models a read error, mapped to false) and parsed by
textTruncate and consentOfLine. -/
def ask_to_log_crash (envVar : Option (List Char))
    (rawInput : Option (List Char)) : ConsentOutcome :=
  match envVar with
  | some var => ⟨var == "true".data, false, false⟩
  | none =>
    match rawInput with
    | some raw => ⟨consentOfLine (textTruncate raw), true, true⟩
    | none => ⟨false, true, true⟩

/-! ## Console routing of the print functions and of the console sink -/

/-- The outcome of try_write on the progress cell: the lock is acquired and
the cell holds an optional widget (carried as its is_finished value), or
the lock is contended. -/
inductive LockAttempt where
  | acquired (widget : Option Bool)
  | contended
deriving DecidableEq

/-- Where a console line ends up. -/
inductive OutRoute where
  | widgetAbove
  | stdoutDirect
  | stderrDirect
deriving DecidableEq

/-- The module println: a non-blocking try_write on the progress cell; with
a registered widget that is not finished the line goes to the widget
print_above, otherwise (no widget, finished widget, or contended lock)
directly to stdout. -/
def printlnRoute : LockAttempt → OutRoute
  | .acquired (some finished) =>
    if finished then .stdoutDirect else .widgetAbove
  | .acquired none => .stdoutDirect
  | .contended => .stdoutDirect

/-- The module eprintln: the same match with stderr as the direct stream. -/
def eprintlnRoute : LockAttempt → OutRoute
  | .acquired (some finished) =>
    if finished then .stderrDirect else .widgetAbove
  | .acquired none => .stderrDirect
  | .contended => .stderrDirect

/-- The console sink in the init format closure: a blocking write lock on
the progress cell (so no contended case exists on this path), then the line
goes to the widget print_above whenever a widget is registered, with no
is_finished check, and directly to stdout only when no widget is
registered. -/
def consoleSinkRoute : Option Bool → OutRoute
  | some _ => .widgetAbove
  | none => .stdoutDirect

end Logging

namespace Logging

/-! ## Theorems for the width tracker -/

theorem max_target_width_eq (stored : Nat) (target : List Char) :
    max_target_width stored target =
      (max stored target.length, max stored target.length) := by
  unfold max_target_width
  rcases Nat.lt_or_ge stored target.length with h | h
  · rw [if_pos h, Nat.max_eq_right (Nat.le_of_lt h)]
  · rw [if_neg (Nat.not_lt.mpr h), Nat.max_eq_left h]

theorem observeRun_cons (stored : Nat) (t : List Char) (ts : List (List Char)) :
    observeRun stored (t :: ts) =
      max stored t.length :: observeRun (max stored t.length) ts := by
  simp [observeRun, max_target_width_eq]

theorem observeRun_head_ge (stored : Nat) (ts : List (List Char)) :
    ∀ y ∈ (observeRun stored ts).head?, stored ≤ y := by
  cases ts with
  | nil => simp [observeRun]
  | cons t ts => simp [observeRun_cons]

theorem observeRun_chain (stored : Nat) (ts : List (List Char)) :
    List.Chain' (· ≤ ·) (observeRun stored ts) := by
  induction ts generalizing stored with
  | nil => simp [observeRun]
  | cons t ts ih =>
    rw [observeRun_cons, List.chain'_cons']
    exact ⟨observeRun_head_ge _ ts, ih _⟩

theorem observeRun_ge_len (stored : Nat) (ts : List (List Char)) :
    List.Forall₂ (fun t w => (t : List Char).length ≤ w) ts (observeRun stored ts) := by
  induction ts generalizing stored with
  | nil => simp [observeRun]
  | cons t ts ih =>
    rw [observeRun_cons]
    exact List.Forall₂.cons (le_max_right _ _) (ih _)

/-- C7: the observe operation (max_target_width) returns the larger of the
stored maximum and the length of the target, stores that same value (so the
register is updated exactly when the target is longer), and over any
sequence of calls the returned widths are non-decreasing and each is at
least the length of the target of its own call. -/
theorem width_tracker_observe_monotone :
    (∀ stored target, (max_target_width stored target).1 = max stored target.length) ∧
    (∀ stored target, (max_target_width stored target).2 = max stored target.length) ∧
    (∀ stored ts, List.Chain' (· ≤ ·) (observeRun stored ts)) ∧
    (∀ stored ts,
      List.Forall₂ (fun t w => (t : List Char).length ≤ w) ts (observeRun stored ts)) :=
  ⟨fun s t => by rw [max_target_width_eq],
   fun s t => by rw [max_target_width_eq],
   observeRun_chain, observeRun_ge_len⟩

/-! ## Theorems for console formatting -/

/-- C3 counterexample: with the width register at 10, the console line for a
Warn record targeting flash with message retry 1/3 is not the claimed
literal, because the format string in init starts with seven literal spaces
that the claimed literal omits. -/
theorem console_format_claim_false :
    (consoleFormat 10 ⟨.Warn, "flash".data, "retry 1/3".data⟩).1 ≠
      " WARN flash      > retry 1/3".data := by
  decide

/-- C3 amended: the console line for that record equals the claimed literal
prefixed by the seven literal spaces of the format string (eight spaces in
total before WARN, since the Warn label itself starts with one space). -/
theorem console_format_line :
    (consoleFormat 10 ⟨.Warn, "flash".data, "retry 1/3".data⟩).1 =
      "        WARN flash      > retry 1/3".data := by
  decide

/-! ## Theorems for the sentry sink -/

/-- C5: the sentry sink pushes a breadcrumb exactly for records of severity
Debug or stronger, that is for every level but Trace; the pushed breadcrumb
carries the mapped severity (Trace and Debug both to the remote debug
level, Info to info, Warn to warning, Error to error), the record target as
its category and the record message as its message. -/
theorem sentry_sink_accepts_iff :
    (∀ buf now r, sentrySinkLog buf now r = buf ++ [breadcrumbOf now r] ↔
      r.level ≠ Level.Trace) ∧
    (∀ buf now r, r.level = Level.Trace → sentrySinkLog buf now r = buf) ∧
    (∀ r, sentryEnabled r = true ↔ r.level ≠ Level.Trace) ∧
    (∀ now r, (breadcrumbOf now r).level = sentryLevelOf r.level ∧
      (breadcrumbOf now r).category = some r.target ∧
      (breadcrumbOf now r).message = some r.message) ∧
    sentryLevelOf Level.Trace = SentryLevel.debug ∧
    sentryLevelOf Level.Debug = SentryLevel.debug ∧
    sentryLevelOf Level.Info = SentryLevel.info ∧
    sentryLevelOf Level.Warn = SentryLevel.warning ∧
    sentryLevelOf Level.Error = SentryLevel.error := by
  refine ⟨?_, ?_, ?_, ?_, rfl, rfl, rfl, rfl, rfl⟩
  · rintro buf now ⟨lvl, tgt, msg⟩
    cases lvl <;> simp [sentrySinkLog, sentryEnabled, levelNum]
  · rintro buf now ⟨lvl, tgt, msg⟩ h
    cases h
    simp [sentrySinkLog, sentryEnabled, levelNum]
  · rintro ⟨lvl, tgt, msg⟩
    cases lvl <;> simp [sentryEnabled, levelNum]
  · intro now r
    exact ⟨rfl, rfl, rfl⟩

/-! ## Theorems for the breadcrumb buffer and the capture flow -/

theorem foldl_record_state (bs : List Breadcrumb) (st : CaptureState) :
    (bs.foldl record st).log = st.log ++ bs ∧
    (bs.foldl record st).sentryCrumbs = st.sentryCrumbs := by
  induction bs generalizing st with
  | nil => simp
  | cons b bs ih =>
    rw [List.foldl_cons]
    refine ⟨?_, ?_⟩ <;> simp [ih, record]

/-- C1: pushing a sequence of breadcrumbs (one record push per log record
the remote-report sink accepts) onto an initially empty buffer and then
draining with send_logs forwards exactly that sequence in insertion order,
leaves the buffer empty, and a second send_logs forwards nothing further
and changes nothing. -/
theorem breadcrumb_buffer_drain :
    (∀ bs : List Breadcrumb, (bs.foldl record initialState).log = bs) ∧
    (∀ st, (send_logs st).sentryCrumbs = st.sentryCrumbs ++ st.log) ∧
    (∀ st, (send_logs st).log = []) ∧
    (∀ bs : List Breadcrumb,
      (send_logs (bs.foldl record initialState)).sentryCrumbs = bs) ∧
    (∀ st, send_logs (send_logs st) = send_logs st) := by
  have hfold := foldl_record_state
  refine ⟨?_, ?_, ?_, ?_, ?_⟩
  · intro bs
    simpa [initialState] using (hfold bs initialState).1
  · intro st
    rfl
  · intro st
    rfl
  · intro bs
    have h := hfold bs initialState
    show (bs.foldl record initialState).sentryCrumbs ++
      (bs.foldl record initialState).log = bs
    rw [h.1, h.2]
    rfl
  · intro st
    simp [send_logs]

/-- C4: each of the three capture functions leaves the breadcrumb buffer
empty and appends exactly one acknowledgment line to the lines written
through the module println (the progress coordination cell write path,
stdout channel), and that line contains the report identifier (as its
suffix). -/
theorem capture_ack_line :
    (∀ m uuid st, (capture_error m uuid st).log = [] ∧
      (capture_error m uuid st).writes =
        st.writes ++ [⟨Channel.stdout, ackText ++ uuid⟩]) ∧
    (∀ m uuid st, (capture_anyhow m uuid st).log = [] ∧
      (capture_anyhow m uuid st).writes =
        st.writes ++ [⟨Channel.stdout, ackText ++ uuid⟩]) ∧
    (∀ m uuid st, (capture_panic m uuid st).log = [] ∧
      (capture_panic m uuid st).writes =
        st.writes ++ [⟨Channel.stdout, ackText ++ uuid⟩]) ∧
    (∀ uuid : List Char, uuid <:+ ackText ++ uuid) := by
  refine ⟨?_, ?_, ?_, fun uuid => ⟨ackText, rfl⟩⟩ <;>
    exact fun m uuid st => ⟨rfl, rfl⟩

/-! ## Theorems for initialization -/

/-- C8: the first init call succeeds and binds the global dispatcher; a
second call finds the dispatcher already bound, CombinedLogger.init
returns an error, and the unwrap in init panics (modelled by none) instead
of rebinding the routing. -/
theorem init_twice_fatal :
    initOutcome false = some true ∧ initOutcome true = none :=
  ⟨rfl, rfl⟩

/-! ## Theorems for the consent prompt -/

theorem head_append_crlf_ne (cs : List Char) (h : '\n' ∉ cs) :
    ¬ (cs ++ ['\r', '\n']).head? = some '\n' := by
  cases cs with
  | nil => simp
  | cons d ds =>
    simp only [List.cons_append, List.head?_cons, Option.some.injEq]
    intro hd
    exact h (hd ▸ List.mem_cons_self d ds)

theorem textTruncate_crlf (l : List Char) (h : '\n' ∉ l) :
    textTruncate (l ++ ['\r', '\n']) = l := by
  induction l with
  | nil => simp [textTruncate]
  | cons c cs ih =>
    have hc : c ≠ '\n' := fun hcn => h (hcn ▸ List.mem_cons_self c cs)
    have hcs : '\n' ∉ cs := fun hm => h (List.mem_cons_of_mem c hm)
    rw [List.cons_append, textTruncate, if_neg hc,
      if_neg (fun hp => head_append_crlf_ne cs hcs hp.2), ih hcs]

theorem textTruncate_lf (l : List Char) (h : '\n' ∉ l) (hr : '\r' ∉ l) :
    textTruncate (l ++ ['\n']) = l := by
  induction l with
  | nil => simp [textTruncate]
  | cons c cs ih =>
    have hc : c ≠ '\n' := fun hcn => h (hcn ▸ List.mem_cons_self c cs)
    have hcr : c ≠ '\r' := fun hcn => hr (hcn ▸ List.mem_cons_self c cs)
    have hcs : '\n' ∉ cs := fun hm => h (List.mem_cons_of_mem c hm)
    have hcsr : '\r' ∉ cs := fun hm => hr (List.mem_cons_of_mem c hm)
    rw [List.cons_append, textTruncate, if_neg hc,
      if_neg (fun hp => hcr hp.1), ih hcs hcsr]

theorem consentIfChain_eq (x : List Char) :
    (if x.isEmpty then false
     else if x.isPrefixOf "yes".data then true
     else if x.isPrefixOf "no".data then false else false) =
      (!x.isEmpty && x.isPrefixOf "yes".data) := by
  rcases h0 : x.isEmpty with _ | _ <;>
    rcases h1 : x.isPrefixOf "yes".data with _ | _ <;>
      simp [h0, h1, ite_self]

theorem consentOfLine_true_iff (s : List Char) :
    consentOfLine s = true ↔
      (s.map Char.toLower ≠ [] ∧
        (s.map Char.toLower).isPrefixOf "yes".data = true) := by
  simp only [consentOfLine]
  rw [consentIfChain_eq (s.map Char.toLower)]
  simp [Bool.and_eq_true, List.isEmpty_iff]

/-- C2: the line read by text has one trailing carriage-return/newline pair
(or lone newline) trimmed; the parse lowercases the line, maps the empty
line to false, a non-empty start of the word yes to true and everything
else (the starts of the word no among it) to false; the listed sample
inputs parse accordingly through ask_to_log_crash with no environment
override. -/
theorem consent_line_parsing :
    (∀ l : List Char, '\n' ∉ l → textTruncate (l ++ ['\r', '\n']) = l) ∧
    (∀ l : List Char, '\n' ∉ l → '\r' ∉ l → textTruncate (l ++ ['\n']) = l) ∧
    (∀ s : List Char, consentOfLine s = true ↔
      (s.map Char.toLower ≠ [] ∧
        (s.map Char.toLower).isPrefixOf "yes".data = true)) ∧
    (ask_to_log_crash none (some "".data)).result = false ∧
    (ask_to_log_crash none (some "y\n".data)).result = true ∧
    (ask_to_log_crash none (some "yes\n".data)).result = true ∧
    (ask_to_log_crash none (some "YES\r\n".data)).result = true ∧
    (ask_to_log_crash none (some "n\n".data)).result = false ∧
    (ask_to_log_crash none (some "no\n".data)).result = false ∧
    (ask_to_log_crash none (some "maybe\n".data)).result = false ∧
    (ask_to_log_crash none (some "true\n".data)).result = false := by
  refine ⟨textTruncate_crlf, textTruncate_lf, consentOfLine_true_iff,
    ?_, ?_, ?_, ?_, ?_, ?_, ?_, ?_⟩ <;> decide

/-- C2 sample: the carriage-return/newline trimming applied at the concrete
line y, through the theorem itself. -/
theorem consent_line_parsing_sample :
    textTruncate ("y".data ++ ['\r', '\n']) = "y".data :=
  consent_line_parsing.1 "y".data (by decide)

/-- C9: with the environment override present, ask_to_log_crash returns
true exactly when the value equals true, and neither prints the
explanation nor reads standard input, whatever the value is. -/
theorem consent_env_override :
    (∀ v rawInput,
      ((ask_to_log_crash (some v) rawInput).result = true ↔ v = "true".data)) ∧
    (∀ v rawInput, (ask_to_log_crash (some v) rawInput).prompted = false) ∧
    (∀ v rawInput, (ask_to_log_crash (some v) rawInput).readInput = false) := by
  refine ⟨?_, fun v r => rfl, fun v r => rfl⟩
  intro v rawInput
  simp [ask_to_log_crash]

/-- C9 sample: the override value true yields true, through the theorem
itself at a concrete input. -/
theorem consent_env_override_sample :
    (ask_to_log_crash (some "true".data) none).result = true :=
  (consent_env_override.1 "true".data none).mpr rfl

/-! ## Theorems for console routing -/

/-- C6: the module println and eprintln delegate to the widget print_above
exactly when the lock is acquired and an unfinished widget is registered;
with no widget, a finished widget, or a contended lock attempt the line
goes directly to the stream of the call, stdout for println and stderr for
eprintln. -/
theorem print_routing :
    printlnRoute (.acquired (some false)) = .widgetAbove ∧
    printlnRoute (.acquired (some true)) = .stdoutDirect ∧
    printlnRoute (.acquired none) = .stdoutDirect ∧
    printlnRoute .contended = .stdoutDirect ∧
    eprintlnRoute (.acquired (some false)) = .widgetAbove ∧
    eprintlnRoute (.acquired (some true)) = .stderrDirect ∧
    eprintlnRoute (.acquired none) = .stderrDirect ∧
    eprintlnRoute .contended = .stderrDirect := by
  decide

/-- C10: the console sink of the dispatcher routes through the widget
print_above whenever a widget is registered, finished or not (no
is_finished check on this path, and a blocking lock with no contended
case), while the module println sends the same finished-widget case
directly to stdout; only with no widget does the sink write directly to
stdout. -/
theorem console_sink_unconditional :
    consoleSinkRoute (some true) = .widgetAbove ∧
    consoleSinkRoute (some false) = .widgetAbove ∧
    consoleSinkRoute none = .stdoutDirect ∧
    printlnRoute (.acquired (some true)) = .stdoutDirect := by
  decide

end Logging
